import Mathlib

/-!
Shallow embedding of `src/models/backbone_n.py` (NTPN repository): thin
adapter classes exposing pretrained torchvision image classifiers as
feature backbones.  Tensors are modelled as a shape (list of axis sizes)
plus row-major rational data; a layer is a function from tensor to
tensor, with `none` modelling a raised shape error; a network is its
ordered list of top-level sublayers (`nn.Module.children()`), and
applying it composes the sublayers in order (`nn.Sequential` semantics).
Python exceptions are modelled by `Except PyError`.
-/

set_option autoImplicit false
set_option maxRecDepth 8192

namespace NTPN

/-- A tensor: its shape and its row-major data. -/
structure Tensor where
  shape : List Nat
  data : List ℚ
deriving DecidableEq

/-- Embedding of `torch.ones(shape)`: an all-ones tensor. -/
def torchOnes (shape : List Nat) : Tensor :=
  ⟨shape, List.replicate shape.prod 1⟩

/-- Embedding of `torch.flatten(t, start_dim=1)`: all axes from 1 on are
collapsed into one; the row-major data is unchanged. -/
def torchFlatten1 (t : Tensor) : Tensor :=
  match t.shape with
  | [] => t
  | b :: rest => ⟨[b, rest.prod], t.data⟩

/-- Mean of each consecutive chunk of length `hw` of a row-major data list. -/
def spatialMeanData (hw : Nat) (d : List ℚ) : List ℚ :=
  (List.range (d.length / hw)).map (fun i => ((d.drop (i * hw)).take hw).sum / (hw : ℚ))

/-- Embedding of `t.mean([2, 3])` as used on the 4-D feature map
`[batch, channels, height, width]`: averages away the two spatial axes.
On a tensor that is not 4-D the call site in the source would raise, so
the embedding returns `none` there. -/
def tensorMean23 (t : Tensor) : Option Tensor :=
  match t.shape with
  | [b, c, h, w] => some ⟨[b, c], spatialMeanData (h * w) t.data⟩
  | _ => none

/-- A layer (one `nn.Module` child as used here): a function from tensor
to tensor; `none` models a raised shape error. -/
def Layer : Type := Tensor → Option Tensor

/-- A network, identified with its ordered sequence of top-level
sublayers, as returned by `nn.Module.children()`. -/
structure Network where
  children : List Layer

/-- Applying a composed module: the children run in order, as
`nn.Sequential` does. -/
def Network.run (n : Network) (t : Tensor) : Option Tensor :=
  n.children.foldlM (fun acc layer => layer acc) t

/-- The Python exceptions raised by this module. -/
inductive PyError where
  | valueError (msg : String)
  | notImplementedError (msg : String)
  | assertionError (msg : String)
deriving DecidableEq

/-- Embedding of `trim_network_at_index` (backbone_n.py lines 16-23):
asserts the index is negative, then returns `nn.Sequential` of the
Python slice `list(network.children())[:index]`, which for a negative
index keeps the first `len + index` children (clamped at zero). -/
def trim_network_at_index (network : Network) (index : Int) : Except PyError Network :=
  if index < 0 then
    .ok ⟨network.children.take ((network.children.length : Int) + index).toNat⟩
  else
    .error (.assertionError ("Param index must be negative. Received " ++ toString index ++ "."))

/-- Helper building a layer from a pure shape transformer; the data of
the result is a canonical fill, since the numeric values produced by the
external pretrained layers are not part of this module's contract. -/
def shapeLayer (f : List Nat → Option (List Nat)) : Layer :=
  fun t => (f t.shape).map (fun s => ⟨s, List.replicate s.prod 0⟩)

/-- Output spatial size of a convolution or pooling window: kernel `k`,
stride `s`, padding `p`, input size `h`. -/
def convOut (k s p h : Nat) : Nat :=
  (h + 2 * p - k) / s + 1

/-- Modelled from the spec: a 2-D convolution layer of the external
torchvision library (an opaque dependency, not part of src/), at the
shape level. -/
def conv2dLayer (k s p outC : Nat) : Layer :=
  shapeLayer (fun shape =>
    match shape with
    | [b, _, h, w] =>
      if k ≤ h + 2 * p ∧ k ≤ w + 2 * p then
        some [b, outC, convOut k s p h, convOut k s p w]
      else none
    | _ => none)

/-- Modelled from the spec: a shape-preserving torchvision layer
(batch norm, ReLU). -/
def identityLayer : Layer :=
  shapeLayer some

/-- Modelled from the spec: a max-pooling layer of torchvision, at the
shape level. -/
def poolLayer (k s p : Nat) : Layer :=
  shapeLayer (fun shape =>
    match shape with
    | [b, c, h, w] =>
      if k ≤ h + 2 * p ∧ k ≤ w + 2 * p then
        some [b, c, convOut k s p h, convOut k s p w]
      else none
    | _ => none)

/-- Modelled from the spec: one residual stage (`layer1` .. `layer4` of a
torchvision ResNet-family model): sets the channel count and applies its
3x3, padding-1 stride to the spatial axes. -/
def resStageLayer (outC stride : Nat) : Layer :=
  shapeLayer (fun shape =>
    match shape with
    | [b, _, h, w] =>
      if 1 ≤ h ∧ 1 ≤ w then
        some [b, outC, convOut 3 stride 1 h, convOut 3 stride 1 w]
      else none
    | _ => none)

/-- Modelled from the spec: torchvision `AdaptiveAvgPool2d((1, 1))`,
which reduces the spatial axes to 1 x 1. -/
def adaptiveAvgPoolLayer : Layer :=
  shapeLayer (fun shape =>
    match shape with
    | [b, c, h, w] => if 1 ≤ h ∧ 1 ≤ w then some [b, c, 1, 1] else none
    | _ => none)

/-- Modelled from the spec: a fully connected layer mapping the last axis
from `inF` to `outF`. -/
def linearLayer (inF outF : Nat) : Layer :=
  shapeLayer (fun shape =>
    match shape.getLast? with
    | some d => if d = inF then some (shape.dropLast ++ [outF]) else none
    | none => none)

/-- Modelled from the spec: the ten top-level children of a torchvision
ResNet-family model (conv1, bn1, relu, maxpool, layer1-4, avgpool, fc),
parameterised by the four stage output channel counts. -/
def resnetChildren (c1 c2 c3 c4 : Nat) : List Layer :=
  [conv2dLayer 7 2 3 64, identityLayer, identityLayer, poolLayer 3 2 1,
   resStageLayer c1 1, resStageLayer c2 2, resStageLayer c3 2, resStageLayer c4 2,
   adaptiveAvgPoolLayer, linearLayer c4 1000]

/-- Modelled from the spec: torchvision `resnet18` constructor. -/
def resnet18 : Unit → Network := fun _ => ⟨resnetChildren 64 128 256 512⟩

/-- Modelled from the spec: torchvision `resnet34` constructor. -/
def resnet34 : Unit → Network := fun _ => ⟨resnetChildren 64 128 256 512⟩

/-- Modelled from the spec: torchvision `resnet50` constructor. -/
def resnet50 : Unit → Network := fun _ => ⟨resnetChildren 256 512 1024 2048⟩

/-- Modelled from the spec: torchvision `resnet101` constructor. -/
def resnet101 : Unit → Network := fun _ => ⟨resnetChildren 256 512 1024 2048⟩

/-- Modelled from the spec: torchvision `resnet152` constructor. -/
def resnet152 : Unit → Network := fun _ => ⟨resnetChildren 256 512 1024 2048⟩

/-- Modelled from the spec: torchvision `resnext50_32x4d` constructor. -/
def resnext50_32x4d : Unit → Network := fun _ => ⟨resnetChildren 256 512 1024 2048⟩

/-- Modelled from the spec: torchvision `resnext101_32x8d` constructor. -/
def resnext101_32x8d : Unit → Network := fun _ => ⟨resnetChildren 256 512 1024 2048⟩

/-- Modelled from the spec: torchvision `wide_resnet50_2` constructor. -/
def wide_resnet50_2 : Unit → Network := fun _ => ⟨resnetChildren 256 512 1024 2048⟩

/-- Modelled from the spec: torchvision `wide_resnet101_2` constructor. -/
def wide_resnet101_2 : Unit → Network := fun _ => ⟨resnetChildren 256 512 1024 2048⟩

/-- One stride-2, 3x3, padding-1 spatial reduction step. -/
def strideTwoSpatial (h : Nat) : Nat :=
  convOut 3 2 1 h

/-- Modelled from the spec: the `features` child of torchvision
`mobilenet_v2`: five stride-2 stages reduce the spatial axes by a factor
of 32 overall and the channel count becomes 1280.  It is not a pooling
operation: its output keeps nontrivial spatial axes. -/
def mobilenetFeaturesLayer : Layer :=
  shapeLayer (fun shape =>
    match shape with
    | [b, _, h, w] =>
      if 32 ≤ h ∧ 32 ≤ w then
        some [b, 1280,
          strideTwoSpatial (strideTwoSpatial (strideTwoSpatial (strideTwoSpatial (strideTwoSpatial h)))),
          strideTwoSpatial (strideTwoSpatial (strideTwoSpatial (strideTwoSpatial (strideTwoSpatial w))))]
      else none
    | _ => none)

/-- Modelled from the spec: torchvision `mobilenet_v2` constructor; its
two top-level children are `features` and `classifier`. -/
def mobilenet_v2 : Unit → Network :=
  fun _ => ⟨[mobilenetFeaturesLayer, linearLayer 1280 1000]⟩

/-- Spatial size of a DenseNet transition average pool (kernel 2,
stride 2). -/
def transitionSpatial (h : Nat) : Nat :=
  convOut 2 2 0 h

/-- Modelled from the spec: the `features` child of torchvision
`densenet161`: initial 7x7 stride-2 convolution, 3x3 stride-2 max pool,
then dense blocks with three stride-2 transition pools; 2208 output
channels.  There is no global pooling inside `features`: the pooling of
a DenseNet lives in its `forward` method, not in a child module, so the
output of `features` keeps nontrivial spatial axes. -/
def densenetFeaturesLayer : Layer :=
  shapeLayer (fun shape =>
    match shape with
    | [b, _, h, w] =>
      if 32 ≤ h ∧ 32 ≤ w then
        some [b, 2208,
          transitionSpatial (transitionSpatial (transitionSpatial
            (convOut 3 2 1 (convOut 7 2 3 h)))),
          transitionSpatial (transitionSpatial (transitionSpatial
            (convOut 3 2 1 (convOut 7 2 3 w))))]
      else none
    | _ => none)

/-- Modelled from the spec: torchvision `densenet161` constructor; its
two top-level children are `features` and `classifier`. -/
def densenet161 : Unit → Network :=
  fun _ => ⟨[densenetFeaturesLayer, linearLayer 2208 1000]⟩

/-- Embedding of `RESNET_VERSION_TO_MODEL` (lines 37-39): an insertion
ordered association list, as a Python dict is. -/
def RESNET_VERSION_TO_MODEL : List (String × (Unit → Network)) :=
  [("resnet18", resnet18), ("resnet34", resnet34), ("resnet50", resnet50),
   ("resnet101", resnet101), ("resnet152", resnet152),
   ("resnext50_32x4d", resnext50_32x4d)]

/-- Embedding of `RESNEXT_VERSION_TO_MODEL` (line 42). -/
def RESNEXT_VERSION_TO_MODEL : List (String × (Unit → Network)) :=
  [("resnext50_32x4d", resnext50_32x4d), ("resnext101_32x8d", resnext101_32x8d)]

/-- Embedding of `WIDE_RESNET_VERSION_TO_MODEL` (line 45). -/
def WIDE_RESNET_VERSION_TO_MODEL : List (String × (Unit → Network)) :=
  [("wide_resnet50_2", wide_resnet50_2), ("wide_resnet101_2", wide_resnet101_2)]

/-- Embedding of `DENSENET_VERSION_TO_MODEL` (line 47). -/
def DENSENET_VERSION_TO_MODEL : List (String × (Unit → Network)) :=
  [("densenet161", densenet161)]

/-- Keys of a registry, in insertion order (`list(d.keys())`). -/
def registryKeys (r : List (String × (Unit → Network))) : List String :=
  r.map Prod.fst

/-- A single-quote character, as Python `repr` puts around strings. -/
def squote : String :=
  String.mk [Char.ofNat 39]

/-- Python `repr` of a string (single-quoted). -/
def pyStrRepr (s : String) : String :=
  squote ++ s ++ squote

/-- Python `str` of a list of strings, as interpolated by the f-strings
of the constructors: bracketed, comma separated, elements quoted. -/
def pyListRepr (l : List String) : String :=
  "[" ++ String.intercalate ", " (l.map pyStrRepr) ++ "]"

/-- The part of the constructors' error message before the received
value. -/
def versionErrorStem (keys : List String) : String :=
  "Parameter version must be one of " ++ pyListRepr keys ++ ". Received "

/-- The full `ValueError` message of the registry-backed constructors. -/
def versionErrorMsg (keys : List String) (version : String) : String :=
  versionErrorStem keys ++ version ++ "."

/-- Embedding of class `ResNetBackbone`: it holds the truncated network
built at construction time. -/
structure ResNetBackbone where
  backbone : Network

/-- Embedding of `ResNetBackbone.__init__` (lines 65-78): a version not
in the registry raises `ValueError` naming the key list and the received
value; otherwise the named constructor runs and the result is trimmed at
index -1. -/
def ResNetBackbone.init (version : String) : Except PyError ResNetBackbone :=
  match RESNET_VERSION_TO_MODEL.lookup version with
  | none =>
    .error (.valueError (versionErrorMsg (registryKeys RESNET_VERSION_TO_MODEL) version))
  | some ctor => (trim_network_at_index (ctor ()) (-1)).map ResNetBackbone.mk

/-- Embedding of `ResNetBackbone.forward` (lines 81-89): run the
truncated network, then `torch.flatten(_, start_dim=1)`. -/
def ResNetBackbone.forward (m : ResNetBackbone) (input_tensor : Tensor) : Option Tensor :=
  (m.backbone.run input_tensor).map torchFlatten1

/-- Embedding of class `MobileNetBackbone`. -/
structure MobileNetBackbone where
  backbone : Network

/-- Embedding of `MobileNetBackbone.__init__` (lines 103-115): any
version other than the literal string raises `NotImplementedError`;
otherwise `mobilenet_v2` runs and is trimmed at index -1. -/
def MobileNetBackbone.init (version : String) : Except PyError MobileNetBackbone :=
  if version ≠ "mobilenet_v2" then
    .error (.notImplementedError ("Only mobilenet_v2 has been implemented. Received " ++ version ++ "."))
  else
    (trim_network_at_index (mobilenet_v2 ()) (-1)).map MobileNetBackbone.mk

/-- Embedding of `MobileNetBackbone.forward` (lines 118-126): run the
truncated network, then `backbone_features.mean([2, 3])`. -/
def MobileNetBackbone.forward (m : MobileNetBackbone) (input_tensor : Tensor) : Option Tensor :=
  (m.backbone.run input_tensor).bind tensorMean23

/-- Embedding of class `ResNeXtBackbone`. -/
structure ResNeXtBackbone where
  backbone : Network

/-- Embedding of `ResNeXtBackbone.__init__` (lines 138-151). -/
def ResNeXtBackbone.init (version : String) : Except PyError ResNeXtBackbone :=
  match RESNEXT_VERSION_TO_MODEL.lookup version with
  | none =>
    .error (.valueError (versionErrorMsg (registryKeys RESNEXT_VERSION_TO_MODEL) version))
  | some ctor => (trim_network_at_index (ctor ()) (-1)).map ResNeXtBackbone.mk

/-- Embedding of `ResNeXtBackbone.forward` (lines 154-162). -/
def ResNeXtBackbone.forward (m : ResNeXtBackbone) (input_tensor : Tensor) : Option Tensor :=
  (m.backbone.run input_tensor).map torchFlatten1

/-- Embedding of class `WideResNetBackbone`. -/
structure WideResNetBackbone where
  backbone : Network

/-- Embedding of `WideResNetBackbone.__init__` (lines 177-190). -/
def WideResNetBackbone.init (version : String) : Except PyError WideResNetBackbone :=
  match WIDE_RESNET_VERSION_TO_MODEL.lookup version with
  | none =>
    .error (.valueError (versionErrorMsg (registryKeys WIDE_RESNET_VERSION_TO_MODEL) version))
  | some ctor => (trim_network_at_index (ctor ()) (-1)).map WideResNetBackbone.mk

/-- Embedding of `WideResNetBackbone.forward` (lines 193-201). -/
def WideResNetBackbone.forward (m : WideResNetBackbone) (input_tensor : Tensor) : Option Tensor :=
  (m.backbone.run input_tensor).map torchFlatten1

/-- Embedding of class `DenseNetBackbone`. -/
structure DenseNetBackbone where
  backbone : Network

/-- Embedding of `DenseNetBackbone.__init__` (lines 213-226). -/
def DenseNetBackbone.init (version : String) : Except PyError DenseNetBackbone :=
  match DENSENET_VERSION_TO_MODEL.lookup version with
  | none =>
    .error (.valueError (versionErrorMsg (registryKeys DENSENET_VERSION_TO_MODEL) version))
  | some ctor => (trim_network_at_index (ctor ()) (-1)).map DenseNetBackbone.mk

/-- Embedding of `DenseNetBackbone.forward` (lines 229-237). -/
def DenseNetBackbone.forward (m : DenseNetBackbone) (input_tensor : Tensor) : Option Tensor :=
  (m.backbone.run input_tensor).map torchFlatten1

/-- A backbone as the dimension probe sees it: anything exposing a
forward method (the probe is duck-typed in the source). -/
structure GenBackbone where
  forward : Tensor → Option Tensor

/-- Embedding of `calculate_backbone_feature_dim` (lines 28-32): build a
batch-1 all-ones tensor of the given (channels, height, width) shape,
run it through the backbone, return `output_feat.shape[-1]` (`none`
models the exception a failing forward or an empty shape would raise). -/
def calculate_backbone_feature_dim (backbone : GenBackbone) (input_shape : Nat × Nat × Nat) : Option Nat :=
  let tensor := torchOnes [1, input_shape.1, input_shape.2.1, input_shape.2.2]
  let output_feat := backbone.forward tensor
  output_feat.bind (fun out => out.shape.getLast?)

/-- Object-identity view of `trim_network_at_index`, for the claims about
mutation and sharing.  The heap maps a module id (its list position) to
the ids of its children; the function reads the children of `netId`,
slices the id list (a new list of the SAME ids, as Python slicing copies
references, not objects), and allocates one new `nn.Sequential` module
holding them.  Nothing else of the heap is touched. -/
def trim_network_at_index_heap (heap : List (List Nat)) (netId : Nat) (index : Int) :
    Except PyError (List (List Nat) × Nat) :=
  if index < 0 then
    let children := heap.getD netId []
    .ok (heap ++ [children.take ((children.length : Int) + index).toNat], heap.length)
  else
    .error (.assertionError ("Param index must be negative. Received " ++ toString index ++ "."))

/-- A backbone of any of the five families. -/
inductive AnyBackbone where
  | resnet (b : ResNetBackbone)
  | resnext (b : ResNeXtBackbone)
  | wide (b : WideResNetBackbone)
  | dense (b : DenseNetBackbone)
  | mobile (b : MobileNetBackbone)

/-- State-passing view of the forward methods: each call returns the
output together with the instance after the call.  The bodies mirror the
source exactly: each `forward` only reads `self.backbone` and assigns no
attribute, so the instance handed back is the one received. -/
def AnyBackbone.forwardS : AnyBackbone → Tensor → Option Tensor × AnyBackbone
  | .resnet b, t => (b.forward t, .resnet b)
  | .resnext b, t => (b.forward t, .resnext b)
  | .wide b, t => (b.forward t, .wide b)
  | .dense b, t => (b.forward t, .dense b)
  | .mobile b, t => (b.forward t, .mobile b)

/-! Helper lemmas shared by the claim theorems. -/

/-- Looking a key up in an association list misses exactly when the key
is not among the mapped-out keys. -/
theorem lookup_eq_none_of_not_mem_keys {β : Type} (l : List (String × β)) (v : String)
    (h : v ∉ l.map Prod.fst) : List.lookup v l = none := by
  induction l with
  | nil => rfl
  | cons p tl ih =>
    obtain ⟨key, val⟩ := p
    simp only [List.map_cons, List.mem_cons] at h
    push_neg at h
    have hne : (v == key) = false := beq_eq_false_iff_ne.mpr h.1
    simp [List.lookup, hne, ih h.2]

/-- A list occurring inside another still occurs after appending on the
right. -/
theorem isInfix_append_right {α : Type} {l a : List α} (b : List α)
    (h : List.IsInfix l a) : List.IsInfix l (a ++ b) := by
  obtain ⟨s, t, rfl⟩ := h
  exact ⟨s, t ++ b, by simp⟩

/-- The received version is a substring of the constructors' error
message. -/
theorem version_isInfix_msg (keys : List String) (version : String) :
    List.IsInfix version.data (versionErrorMsg keys version).data := by
  refine ⟨(versionErrorStem keys).data, ".".data, ?_⟩
  simp [versionErrorMsg, String.data_append]

/-- Anything occurring in the fixed head of the error message occurs in
the whole message, whatever the received version is. -/
theorem isInfix_msg_of_isInfix_stem {keys : List String} {version k : String}
    (h : List.IsInfix k.data (versionErrorStem keys).data) :
    List.IsInfix k.data (versionErrorMsg keys version).data := by
  have hmsg : (versionErrorMsg keys version).data =
      (versionErrorStem keys).data ++ (version.data ++ ".".data) := by
    simp [versionErrorMsg, String.data_append]
  rw [hmsg]
  exact isInfix_append_right _ h

/-! The claims. -/

/-- C5: for every network with N top-level sublayers, trimming at index
-1 yields a composed module with exactly N-1 sublayers, namely all
sublayers except the last one, order preserved; more generally, for
every strictly negative index -k the result keeps all sublayers except
the last k, in order (the first N-k children, clamped at zero). -/
theorem claim_C5_trim_keeps_all_but_last (network : Network) (k : Nat) (hk : 0 < k) :
    trim_network_at_index network (-(k : Int)) =
      .ok ⟨network.children.take (network.children.length - k)⟩ ∧
    network.children.take (network.children.length - 1) = network.children.dropLast ∧
    (network.children.take (network.children.length - k)).length =
      network.children.length - k := by
  refine ⟨?_, (List.dropLast_eq_take network.children).symm, ?_⟩
  · unfold trim_network_at_index
    rw [if_pos (by omega : -(k : Int) < 0)]
    have harith : ((network.children.length : Int) + -(k : Int)).toNat =
        network.children.length - k := by omega
    rw [harith]
  · rw [List.length_take]
    omega

/-- Witness for C5 on a concrete three-child network at index -1. -/
theorem claim_C5_trim_keeps_all_but_last_witness :
    0 < 1 ∧
    trim_network_at_index ⟨[identityLayer, adaptiveAvgPoolLayer, linearLayer 8 4]⟩ (-(1 : Int)) =
      .ok ⟨[identityLayer, adaptiveAvgPoolLayer]⟩ :=
  ⟨Nat.one_pos,
   (claim_C5_trim_keeps_all_but_last ⟨[identityLayer, adaptiveAvgPoolLayer, linearLayer 8 4]⟩ 1
     Nat.one_pos).1⟩

/-- C6: the truncation utility fails its precondition check for every
non-negative index, and for every strictly negative index the failure
branch is unreachable and the call returns normally. -/
theorem claim_C6_trim_precondition (network : Network) (index : Int) :
    (0 ≤ index → trim_network_at_index network index =
      .error (.assertionError
        ("Param index must be negative. Received " ++ toString index ++ "."))) ∧
    (index < 0 → ∃ trimmed, trim_network_at_index network index = .ok trimmed) := by
  constructor
  · intro h
    unfold trim_network_at_index
    rw [if_neg (by omega)]
  · intro h
    refine ⟨⟨network.children.take ((network.children.length : Int) + index).toNat⟩, ?_⟩
    unfold trim_network_at_index
    rw [if_pos h]

/-- Witness for C6 at indices 0 and -1 on a concrete network. -/
theorem claim_C6_trim_precondition_witness :
    (0 ≤ (0 : Int) ∧
      trim_network_at_index ⟨[identityLayer]⟩ 0 =
        .error (.assertionError "Param index must be negative. Received 0.")) ∧
    ((-1 : Int) < 0 ∧ ∃ trimmed, trim_network_at_index ⟨[identityLayer]⟩ (-1) = .ok trimmed) :=
  ⟨⟨le_refl 0, (claim_C6_trim_precondition ⟨[identityLayer]⟩ 0).1 (le_refl 0)⟩,
   ⟨by omega, (claim_C6_trim_precondition ⟨[identityLayer]⟩ (-1)).2 (by omega)⟩⟩

/-- C7: in the object-identity view, trimming at a strictly negative
index leaves the input network's child list untouched (every heap entry
below the allocation point is unchanged) and the returned container
holds the very same child ids as the input - a reference-sharing slice,
not copies. -/
theorem claim_C7_trim_no_mutation (heap : List (List Nat)) (netId : Nat) (index : Int)
    (h : index < 0) :
    ∃ heap2 newId,
      trim_network_at_index_heap heap netId index = .ok (heap2, newId) ∧
      heap2.take heap.length = heap ∧
      heap2.getD newId [] =
        (heap.getD netId []).take (((heap.getD netId []).length : Int) + index).toNat ∧
      ∀ layerId ∈ heap2.getD newId [], layerId ∈ heap.getD netId [] := by
  refine ⟨heap ++ [(heap.getD netId []).take (((heap.getD netId []).length : Int) + index).toNat],
    heap.length, ?_, List.take_left heap _, ?_, ?_⟩
  · unfold trim_network_at_index_heap
    rw [if_pos h]
  · simp [List.getD, List.getElem?_concat_length]
  · intro layerId hmem
    have hx : (heap ++
        [(heap.getD netId []).take (((heap.getD netId []).length : Int) + index).toNat]).getD
          heap.length [] =
        (heap.getD netId []).take (((heap.getD netId []).length : Int) + index).toNat := by
      simp [List.getD, List.getElem?_concat_length]
    rw [hx] at hmem
    exact List.take_subset _ _ hmem

/-- Witness for C7 on a one-module heap whose network has three
children. -/
theorem claim_C7_trim_no_mutation_witness :
    (-1 : Int) < 0 ∧
    ∃ heap2 newId,
      trim_network_at_index_heap [[5, 6, 7]] 0 (-1) = .ok (heap2, newId) ∧
      heap2.take 1 = [[5, 6, 7]] ∧
      heap2.getD newId [] =
        ([5, 6, 7].take ((([5, 6, 7] : List Nat).length : Int) + (-1)).toNat) ∧
      ∀ layerId ∈ heap2.getD newId [], layerId ∈ ([5, 6, 7] : List Nat) :=
  ⟨by omega, claim_C7_trim_no_mutation [[5, 6, 7]] 0 (-1) (by omega)⟩

/-- C9: forward is deterministic and mutation-free: in the state-passing
view, a forward call hands the instance back unchanged, and a second
call on the handed-back instance with the same input produces the same
output. -/
theorem claim_C9_forward_deterministic (b : AnyBackbone) (t : Tensor) :
    (b.forwardS t).2 = b ∧ (((b.forwardS t).2.forwardS t).1 = (b.forwardS t).1) := by
  cases b <;> exact ⟨rfl, rfl⟩

/-- C2: for any version string not present in a registry-backed family's
registry, construction fails with a `ValueError` whose message contains
the received value and every allowed name of that family; in particular
the residual family's registry has exactly six names and "resnet9" is
rejected with the `ValueError` carrying them. -/
theorem claim_C2_invalid_version_error (version : String) :
    (version ∉ registryKeys RESNET_VERSION_TO_MODEL →
      ResNetBackbone.init version =
        .error (.valueError (versionErrorMsg (registryKeys RESNET_VERSION_TO_MODEL) version)) ∧
      List.IsInfix version.data
        (versionErrorMsg (registryKeys RESNET_VERSION_TO_MODEL) version).data ∧
      ∀ k ∈ registryKeys RESNET_VERSION_TO_MODEL,
        List.IsInfix k.data
          (versionErrorMsg (registryKeys RESNET_VERSION_TO_MODEL) version).data) ∧
    (version ∉ registryKeys RESNEXT_VERSION_TO_MODEL →
      ResNeXtBackbone.init version =
        .error (.valueError (versionErrorMsg (registryKeys RESNEXT_VERSION_TO_MODEL) version)) ∧
      List.IsInfix version.data
        (versionErrorMsg (registryKeys RESNEXT_VERSION_TO_MODEL) version).data ∧
      ∀ k ∈ registryKeys RESNEXT_VERSION_TO_MODEL,
        List.IsInfix k.data
          (versionErrorMsg (registryKeys RESNEXT_VERSION_TO_MODEL) version).data) ∧
    (version ∉ registryKeys WIDE_RESNET_VERSION_TO_MODEL →
      WideResNetBackbone.init version =
        .error (.valueError (versionErrorMsg (registryKeys WIDE_RESNET_VERSION_TO_MODEL) version)) ∧
      List.IsInfix version.data
        (versionErrorMsg (registryKeys WIDE_RESNET_VERSION_TO_MODEL) version).data ∧
      ∀ k ∈ registryKeys WIDE_RESNET_VERSION_TO_MODEL,
        List.IsInfix k.data
          (versionErrorMsg (registryKeys WIDE_RESNET_VERSION_TO_MODEL) version).data) ∧
    (version ∉ registryKeys DENSENET_VERSION_TO_MODEL →
      DenseNetBackbone.init version =
        .error (.valueError (versionErrorMsg (registryKeys DENSENET_VERSION_TO_MODEL) version)) ∧
      List.IsInfix version.data
        (versionErrorMsg (registryKeys DENSENET_VERSION_TO_MODEL) version).data ∧
      ∀ k ∈ registryKeys DENSENET_VERSION_TO_MODEL,
        List.IsInfix k.data
          (versionErrorMsg (registryKeys DENSENET_VERSION_TO_MODEL) version).data) ∧
    (registryKeys RESNET_VERSION_TO_MODEL).length = 6 := by
  refine ⟨?_, ?_, ?_, ?_, rfl⟩
  · intro hnot
    have hlk : List.lookup version RESNET_VERSION_TO_MODEL = none :=
      lookup_eq_none_of_not_mem_keys _ _ hnot
    refine ⟨?_, version_isInfix_msg _ _, ?_⟩
    · simp only [ResNetBackbone.init, hlk]
    · intro k hk
      have hkeys : registryKeys RESNET_VERSION_TO_MODEL =
          ["resnet18", "resnet34", "resnet50", "resnet101", "resnet152",
           "resnext50_32x4d"] := rfl
      rw [hkeys] at hk
      fin_cases hk <;> exact isInfix_msg_of_isInfix_stem (by decide)
  · intro hnot
    have hlk : List.lookup version RESNEXT_VERSION_TO_MODEL = none :=
      lookup_eq_none_of_not_mem_keys _ _ hnot
    refine ⟨?_, version_isInfix_msg _ _, ?_⟩
    · simp only [ResNeXtBackbone.init, hlk]
    · intro k hk
      have hkeys : registryKeys RESNEXT_VERSION_TO_MODEL =
          ["resnext50_32x4d", "resnext101_32x8d"] := rfl
      rw [hkeys] at hk
      fin_cases hk <;> exact isInfix_msg_of_isInfix_stem (by decide)
  · intro hnot
    have hlk : List.lookup version WIDE_RESNET_VERSION_TO_MODEL = none :=
      lookup_eq_none_of_not_mem_keys _ _ hnot
    refine ⟨?_, version_isInfix_msg _ _, ?_⟩
    · simp only [WideResNetBackbone.init, hlk]
    · intro k hk
      have hkeys : registryKeys WIDE_RESNET_VERSION_TO_MODEL =
          ["wide_resnet50_2", "wide_resnet101_2"] := rfl
      rw [hkeys] at hk
      fin_cases hk <;> exact isInfix_msg_of_isInfix_stem (by decide)
  · intro hnot
    have hlk : List.lookup version DENSENET_VERSION_TO_MODEL = none :=
      lookup_eq_none_of_not_mem_keys _ _ hnot
    refine ⟨?_, version_isInfix_msg _ _, ?_⟩
    · simp only [DenseNetBackbone.init, hlk]
    · intro k hk
      have hkeys : registryKeys DENSENET_VERSION_TO_MODEL = ["densenet161"] := rfl
      rw [hkeys] at hk
      fin_cases hk
      exact isInfix_msg_of_isInfix_stem (by decide)

/-- Witness for C2 at the concrete rejected version "resnet9". -/
theorem claim_C2_invalid_version_error_witness :
    "resnet9" ∉ registryKeys RESNET_VERSION_TO_MODEL ∧
    ResNetBackbone.init "resnet9" =
      .error (.valueError (versionErrorMsg (registryKeys RESNET_VERSION_TO_MODEL) "resnet9")) ∧
    List.IsInfix "resnet9".data
      (versionErrorMsg (registryKeys RESNET_VERSION_TO_MODEL) "resnet9").data ∧
    (registryKeys RESNET_VERSION_TO_MODEL).length = 6 := by
  have h : "resnet9" ∉ registryKeys RESNET_VERSION_TO_MODEL := by decide
  have hc := claim_C2_invalid_version_error "resnet9"
  exact ⟨h, (hc.1 h).1, (hc.1 h).2.1, hc.2.2.2.2⟩

/-- C3: the mobile-network wrapper rejects every version string other
than the literal "mobilenet_v2" - including names valid in the other
families - with a `NotImplementedError`, never with the `ValueError` the
other families use; the literal itself constructs without raising. -/
theorem claim_C3_mobilenet_not_implemented (version : String) :
    (version ≠ "mobilenet_v2" →
      MobileNetBackbone.init version =
        .error (.notImplementedError
          ("Only mobilenet_v2 has been implemented. Received " ++ version ++ ".")) ∧
      ∀ msg, MobileNetBackbone.init version ≠ .error (.valueError msg)) ∧
    ∃ b, MobileNetBackbone.init "mobilenet_v2" = .ok b := by
  constructor
  · intro hne
    have hinit : MobileNetBackbone.init version =
        .error (.notImplementedError
          ("Only mobilenet_v2 has been implemented. Received " ++ version ++ ".")) := by
      unfold MobileNetBackbone.init
      rw [if_pos hne]
    refine ⟨hinit, ?_⟩
    intro msg hcontra
    rw [hinit] at hcontra
    exact PyError.noConfusion (Except.error.inj hcontra)
  · exact ⟨⟨⟨[mobilenetFeaturesLayer]⟩⟩, rfl⟩

/-- Witness for C3 at "resnet50", a name valid in another family. -/
theorem claim_C3_mobilenet_not_implemented_witness :
    "resnet50" ≠ "mobilenet_v2" ∧
    MobileNetBackbone.init "resnet50" =
      .error (.notImplementedError
        ("Only mobilenet_v2 has been implemented. Received resnet50.")) :=
  ⟨by decide,
   ((claim_C3_mobilenet_not_implemented "resnet50").1 (by decide)).1⟩

/-- C10: the residual registry holds the grouped-convolution name
"resnext50_32x4d" besides the five resnet names (its key list is the
six-element list below, beyond the five names the class docstring
allows), constructing the residual backbone with it succeeds, and the
grouped-residual family accepts the same name. -/
theorem claim_C10_resnext_in_resnet_registry :
    "resnext50_32x4d" ∈ registryKeys RESNET_VERSION_TO_MODEL ∧
    registryKeys RESNET_VERSION_TO_MODEL =
      ["resnet18", "resnet34", "resnet50", "resnet101", "resnet152", "resnext50_32x4d"] ∧
    (∃ b, ResNetBackbone.init "resnext50_32x4d" = .ok b) ∧
    (∃ b, ResNeXtBackbone.init "resnext50_32x4d" = .ok b) := by
  refine ⟨by decide, rfl, ⟨⟨⟨(resnetChildren 256 512 1024 2048).take 9⟩⟩, rfl⟩,
    ⟨⟨⟨(resnetChildren 256 512 1024 2048).take 9⟩⟩, rfl⟩⟩

/-- C1: feature widths of the registered architectures, observed on a
[2, 3, 224, 224] batch.  Every ResNet-family, ResNeXt, wide-ResNet and
the MobileNet name produces its documented width (512, 2048 or 1280),
but the dense family does not: torchvision's densenet161 keeps no
pooling among its top-level children, so the truncated network still
carries 7 x 7 spatial axes and flattening returns last-axis size
2208 * 7 * 7 = 108192, not the documented feature width 2208. -/
theorem claim_C1_registered_feature_widths :
    (ResNetBackbone.init "resnet18").map
      (fun b => (b.forward (torchOnes [2, 3, 224, 224])).map Tensor.shape) =
        .ok (some [2, 512]) ∧
    (ResNetBackbone.init "resnet34").map
      (fun b => (b.forward (torchOnes [2, 3, 224, 224])).map Tensor.shape) =
        .ok (some [2, 512]) ∧
    (ResNetBackbone.init "resnet50").map
      (fun b => (b.forward (torchOnes [2, 3, 224, 224])).map Tensor.shape) =
        .ok (some [2, 2048]) ∧
    (ResNetBackbone.init "resnet101").map
      (fun b => (b.forward (torchOnes [2, 3, 224, 224])).map Tensor.shape) =
        .ok (some [2, 2048]) ∧
    (ResNetBackbone.init "resnet152").map
      (fun b => (b.forward (torchOnes [2, 3, 224, 224])).map Tensor.shape) =
        .ok (some [2, 2048]) ∧
    (ResNetBackbone.init "resnext50_32x4d").map
      (fun b => (b.forward (torchOnes [2, 3, 224, 224])).map Tensor.shape) =
        .ok (some [2, 2048]) ∧
    (ResNeXtBackbone.init "resnext50_32x4d").map
      (fun b => (b.forward (torchOnes [2, 3, 224, 224])).map Tensor.shape) =
        .ok (some [2, 2048]) ∧
    (ResNeXtBackbone.init "resnext101_32x8d").map
      (fun b => (b.forward (torchOnes [2, 3, 224, 224])).map Tensor.shape) =
        .ok (some [2, 2048]) ∧
    (WideResNetBackbone.init "wide_resnet50_2").map
      (fun b => (b.forward (torchOnes [2, 3, 224, 224])).map Tensor.shape) =
        .ok (some [2, 2048]) ∧
    (WideResNetBackbone.init "wide_resnet101_2").map
      (fun b => (b.forward (torchOnes [2, 3, 224, 224])).map Tensor.shape) =
        .ok (some [2, 2048]) ∧
    (MobileNetBackbone.init "mobilenet_v2").map
      (fun b => (b.forward (torchOnes [2, 3, 224, 224])).map Tensor.shape) =
        .ok (some [2, 1280]) ∧
    (DenseNetBackbone.init "densenet161").map
      (fun b => (b.forward (torchOnes [2, 3, 224, 224])).map Tensor.shape) =
        .ok (some [2, 108192]) ∧
    108192 = 2208 * 7 * 7 ∧ 108192 ≠ 2208 :=
  ⟨rfl, rfl, rfl, rfl, rfl, rfl, rfl, rfl, rfl, rfl, rfl, rfl, rfl, by decide⟩

/-- C4: whenever the truncated network's output is a 4-D tensor
[b, c, h, w], the residual, grouped-residual, wide-residual and dense
families flatten channels, height and width into one axis starting at
dimension 1 (shape [b, c*h*w], row-major data unchanged), while the
mobile family averages over the height and width dimensions (shape
[b, c], each entry the mean of one h*w spatial slice); every family thus
returns a 2-D tensor. -/
theorem claim_C4_family_reduction (t out : Tensor) (b c h w : Nat) :
    (∀ rn : ResNetBackbone, rn.backbone.run t = some out → out.shape = [b, c, h, w] →
      rn.forward t = some ⟨[b, c * h * w], out.data⟩) ∧
    (∀ rx : ResNeXtBackbone, rx.backbone.run t = some out → out.shape = [b, c, h, w] →
      rx.forward t = some ⟨[b, c * h * w], out.data⟩) ∧
    (∀ wr : WideResNetBackbone, wr.backbone.run t = some out → out.shape = [b, c, h, w] →
      wr.forward t = some ⟨[b, c * h * w], out.data⟩) ∧
    (∀ dn : DenseNetBackbone, dn.backbone.run t = some out → out.shape = [b, c, h, w] →
      dn.forward t = some ⟨[b, c * h * w], out.data⟩) ∧
    (∀ mn : MobileNetBackbone, mn.backbone.run t = some out → out.shape = [b, c, h, w] →
      mn.forward t = some ⟨[b, c], spatialMeanData (h * w) out.data⟩) := by
  obtain ⟨s, d⟩ := out
  refine ⟨?_, ?_, ?_, ?_, ?_⟩
  case _ =>
    intro rn hrun hshape
    simp only at hshape
    subst hshape
    show (rn.backbone.run t).map torchFlatten1 = _
    rw [hrun]
    simp [torchFlatten1, mul_assoc]
  case _ =>
    intro rx hrun hshape
    simp only at hshape
    subst hshape
    show (rx.backbone.run t).map torchFlatten1 = _
    rw [hrun]
    simp [torchFlatten1, mul_assoc]
  case _ =>
    intro wr hrun hshape
    simp only at hshape
    subst hshape
    show (wr.backbone.run t).map torchFlatten1 = _
    rw [hrun]
    simp [torchFlatten1, mul_assoc]
  case _ =>
    intro dn hrun hshape
    simp only at hshape
    subst hshape
    show (dn.backbone.run t).map torchFlatten1 = _
    rw [hrun]
    simp [torchFlatten1, mul_assoc]
  case _ =>
    intro mn hrun hshape
    simp only at hshape
    subst hshape
    show (mn.backbone.run t).bind tensorMean23 = _
    rw [hrun]
    simp [tensorMean23]

/-- Witness for C4: a child-free residual backbone flattens a concrete
[1, 2, 1, 1] tensor, and a child-free mobile backbone spatially averages
a concrete [1, 1, 2, 2] tensor. -/
theorem claim_C4_family_reduction_witness :
    (ResNetBackbone.mk ⟨[]⟩).forward ⟨[1, 2, 1, 1], [5, 7]⟩ =
      some ⟨[1, 2 * 1 * 1], [5, 7]⟩ ∧
    (MobileNetBackbone.mk ⟨[]⟩).forward ⟨[1, 1, 2, 2], [1, 2, 3, 4]⟩ =
      some ⟨[1, 1], spatialMeanData (2 * 2) [1, 2, 3, 4]⟩ :=
  ⟨(claim_C4_family_reduction ⟨[1, 2, 1, 1], [5, 7]⟩ ⟨[1, 2, 1, 1], [5, 7]⟩ 1 2 1 1).1
     (ResNetBackbone.mk ⟨[]⟩) rfl rfl,
   (claim_C4_family_reduction ⟨[1, 1, 2, 2], [1, 2, 3, 4]⟩ ⟨[1, 1, 2, 2], [1, 2, 3, 4]⟩
     1 1 2 2).2.2.2.2 (MobileNetBackbone.mk ⟨[]⟩) rfl rfl⟩

/-- C8: the dimension probe returns exactly the last-axis size of the
tensor obtained from the backbone's forward on an all-ones batch-1
tensor of the given (channels, height, width) shape, for every backbone
and every shape the backbone's forward tolerates. -/
theorem claim_C8_probe_returns_last_axis (backbone : GenBackbone) (c h w : Nat)
    (out : Tensor) (hfwd : backbone.forward (torchOnes [1, c, h, w]) = some out)
    (hne : out.shape ≠ []) :
    calculate_backbone_feature_dim backbone (c, h, w) = some (out.shape.getLastD 0) := by
  unfold calculate_backbone_feature_dim
  simp only
  rw [hfwd]
  rw [List.getLastD_eq_getLast? 0 out.shape]
  cases hlast : out.shape.getLast? with
  | none => exact absurd (List.getLast?_eq_none_iff.mp hlast) hne
  | some y => simp [hlast]

/-- Witness for C8 on the identity backbone at shape (2, 3, 4). -/
theorem claim_C8_probe_returns_last_axis_witness :
    GenBackbone.forward ⟨some⟩ (torchOnes [1, 2, 3, 4]) = some (torchOnes [1, 2, 3, 4]) ∧
    (torchOnes [1, 2, 3, 4]).shape ≠ [] ∧
    calculate_backbone_feature_dim ⟨some⟩ (2, 3, 4) =
      some ((torchOnes [1, 2, 3, 4]).shape.getLastD 0) :=
  ⟨rfl, by decide,
   claim_C8_probe_returns_last_axis ⟨some⟩ 2 3 4 (torchOnes [1, 2, 3, 4]) rfl (by decide)⟩

end NTPN
